import Mathlib

/-!
Verification of the DNS-provisioning and proxy-switchover core of
`odoo-nginx-setup`.

Python strings that are manipulated character-wise (domain names, record
names) are embedded as `List Char` (named `Str` below); rendered
configuration files are embedded as Lean `String`.  Each definition mirrors
one function of the repository; the file paths are given in the doc
comments.
-/

/-- A Python string viewed as a sequence of characters. -/
abbrev Str := List Char

deriving instance DecidableEq for Except

namespace OdooNginxSetup

/-! ## DNS zone-candidate generation and zone lookup

`src/odoo_nginx_setup/dns/cloudflare.py` and
`src/odoo_nginx_setup/dns/hetzner.py` contain the identical method
`_zone_candidates`:

    parts = fqdn.split(".")
    return [".".join(parts[i:]) for i in range(len(parts) - 1)]
-/

/-- `_zone_candidates` (both providers): all dot-suffixes of `fqdn`
obtained by dropping `i` leading labels for `i < len(parts) - 1`;
this starts at the full FQDN (`i = 0`) and stops before the final
label alone. -/
def zoneCandidates (fqdn : Str) : List Str :=
  let parts := fqdn.splitOn '.'
  (List.range (parts.length - 1)).map fun i => List.intercalate ['.'] (parts.drop i)

/-- One provider zone-list query per candidate, stopping at the first
candidate the provider reports as an existing zone.  Returns the list of
names queried together with the outcome (`Except.error ()` is the
`RuntimeError` "Could not find ... zone for ..." raised by
`find_zone_id` / `find_zone`). -/
def findZoneAux (oracle : Str → Bool) : List Str → List Str × Except Unit Str
  | [] => ([], .error ())
  | c :: rest =>
    if oracle c then ([c], .ok c)
    else (c :: (findZoneAux oracle rest).1, (findZoneAux oracle rest).2)

/-- `CloudflareClient.find_zone_id` / `HetznerDnsClient.find_zone`:
walk the candidates in order, query the provider for each, return the
first existing zone. -/
def findZone (oracle : Str → Bool) (fqdn : Str) : List Str × Except Unit Str :=
  findZoneAux oracle (zoneCandidates fqdn)

/-! ## Relative record names (`HetznerDnsClient._relative_name`)

    if fqdn == zone_name: return "@"
    suffix = "." + zone_name
    if fqdn.endswith(suffix): return fqdn[: -len(suffix)]
    return fqdn
-/

/-- `HetznerDnsClient._relative_name`. -/
def relativeName (fqdn zoneName : Str) : Str :=
  if fqdn = zoneName then ['@']
  else
    let suffix := '.' :: zoneName
    if suffix.isSuffixOf fqdn then fqdn.take (fqdn.length - suffix.length)
    else fqdn

/-! ## Cloudflare record upsert (`CloudflareClient.upsert_record`)

The provider's record table for one zone is a list of records, each with a
provider-assigned id.  `upsert_record` lists the records matching
`(type, name)`; if any exists it issues a PUT replacing the record whose id
is `existing[0]["id"]` with the new payload, otherwise it POSTs a new
record (whose fresh id the provider chooses; it is a parameter here). -/

/-- One Cloudflare DNS record. -/
structure CfRecord where
  id : Nat
  rtype : Str
  name : Str
  content : Str
  ttl : Nat
  proxied : Bool
  deriving DecidableEq, Repr

/-- Does the record match the `(type, name)` filter of the list call? -/
def cfMatches (rtype name : Str) (r : CfRecord) : Bool :=
  r.rtype = rtype && r.name = name

/-- `CloudflareClient.upsert_record` acting on the zone's record table.
`fresh` is the id the provider would assign to a newly created record. -/
def cfUpsertRecord (recs : List CfRecord) (rtype name content : Str)
    (proxied : Bool) (fresh : Nat) : List CfRecord :=
  let existing := recs.filter (cfMatches rtype name)
  match existing with
  | [] => recs ++ [⟨fresh, rtype, name, content, 120, proxied⟩]
  | e :: _ =>
    recs.map fun r =>
      if r.id = e.id then ⟨r.id, rtype, name, content, 120, proxied⟩ else r

/-! ## Hetzner record upsert (`HetznerDnsClient.upsert_record`)

Hetzner's API is RRset-based: the zone's state is a list of RRsets keyed by
`(name, type)`.  `upsert_record` computes the relative name, optionally
fails if the RRset already exists (`fail_if_exists`), then deletes the
`(name, type)` RRset (response ignored) and POSTs a fresh RRset holding the
single value. -/

/-- One Hetzner RRset. -/
structure HzRrset where
  name : Str
  rtype : Str
  ttl : Nat
  values : List Str
  deriving DecidableEq, Repr

/-- Does the RRset match `(name, type)`? -/
def hzMatches (name rtype : Str) (r : HzRrset) : Bool :=
  r.name = name && r.rtype = rtype

/-- `HetznerDnsClient.upsert_record` acting on the zone's RRset table.
The `Except.error` case is the `RuntimeError` raised when
`fail_if_exists` is set and the RRset exists. -/
def hzUpsertRecord (rrsets : List HzRrset) (zoneName rtype fqdn content : Str)
    (failIfExists : Bool) : Except Unit (List HzRrset) :=
  let name := relativeName fqdn zoneName
  if failIfExists && rrsets.any (hzMatches name rtype) then .error ()
  else
    let afterDelete := rrsets.filter fun r => !(hzMatches name rtype r)
    .ok (afterDelete ++ [⟨name, rtype, 120, [content]⟩])

/-! ## DNS-01 hook scripts (`certbot_issue_hetzner_dns` in `nginx.py`)

`certbot_issue_hetzner_dns` writes two bash scripts (auth, cleanup) that
certbot invokes with `CERTBOT_DOMAIN` / `CERTBOT_VALIDATION` in the
environment.  Both share a `find_zone` loop: starting from the FQDN, query
the provider for a zone of that name; on a miss, if the candidate has no
dot left the loop ends (auth: `exit 1` with a diagnostic on stderr;
cleanup: `exit 0`), otherwise the candidate is shortened with
`${candidate#*.}` (drop through the first dot) and the loop repeats. -/

/-- The candidates the scripts' `find_zone` loop tries, in order: the FQDN
itself, then repeatedly the result of `${candidate#*.}` (remove the
shortest prefix matching `*.`, i.e. everything up to and including the
first dot), until the candidate has no dot left (`[[ "$candidate" != *.* ]]`).
Since the labels of a dot-separated name are themselves dot-free,
`${candidate#*.}` drops exactly the leading label, so the loop walks the
label-wise suffixes of the FQDN; this is expressed here by recursion over
the label list. -/
def shellCandidatesParts : List Str → List Str
  | [] => []
  | [l] => [l]
  | l :: rest => List.intercalate ['.'] (l :: rest) :: shellCandidatesParts rest

/-- The full candidate sequence of the scripts' `find_zone` loop for a
given `CERTBOT_DOMAIN`. -/
def shellCandidates (fqdn : Str) : List Str :=
  shellCandidatesParts (fqdn.splitOn '.')

/-- Bash `${fqdn%.$zone_name}`: remove the shortest suffix matching
`.$zone_name`, unchanged when it is not a suffix. -/
def stripDotZoneSuffix (fqdn zoneName : Str) : Str :=
  let suffix := '.' :: zoneName
  if suffix.isSuffixOf fqdn then fqdn.take (fqdn.length - suffix.length)
  else fqdn

/-- The TXT record name both scripts compute: `_acme-challenge` at the zone
apex, `_acme-challenge.<host_part>` otherwise. -/
def hookRecordName (fqdn zoneName : Str) : Str :=
  if fqdn = zoneName then "_acme-challenge".data
  else "_acme-challenge.".data ++ stripDotZoneSuffix fqdn zoneName

/-- Exit code of a `curl` call given the HTTP response status: without
`-f`/`--fail` (the scripts pass neither) an HTTP error status still exits
0. -/
def curlExitCode (failOnHttpError : Bool) (status : Nat) : Nat :=
  if failOnHttpError && decide (400 ≤ status) then 22 else 0

/-- The auth script's TXT value: `"\"" + $CERTBOT_VALIDATION + "\""`. -/
def quoteTxt (v : Str) : Str := '"' :: v ++ ['"']

/-- Outcome of running one hook script: its exit status, the diagnostic it
wrote to stderr (if any), and the provider's RRset table afterwards. -/
structure HookResult where
  exitCode : Nat
  stderrLine : Option Str
  rrsets : List HzRrset
  deriving DecidableEq, Repr

/-- The generated auth script: find the zone by suffix walk; on failure
print `Could not determine zone for $fqdn` to stderr and exit 1; on
success POST a TXT RRset `{name, type: TXT, ttl: 300, records:[value]}`
and (after `sleep 20`) exit 0. -/
def authHookRun (oracle : Str → Bool) (rrsets : List HzRrset)
    (fqdn validation : Str) : HookResult :=
  match (shellCandidates fqdn).find? oracle with
  | none => ⟨1, some ("Could not determine zone for ".data ++ fqdn), rrsets⟩
  | some zoneName =>
    let recordName := hookRecordName fqdn zoneName
    ⟨0, none, rrsets ++ [⟨recordName, "TXT".data, 300, [quoteTxt validation]⟩]⟩

/-- The generated cleanup script: the same suffix walk, but a fruitless
walk runs `exit 0` (terminating the script successfully); on success it
DELETEs the `(record_name, TXT)` RRset with a bare `curl` (no `--fail`),
so an already-absent RRset (HTTP 404) still exits 0. -/
def cleanupHookRun (oracle : Str → Bool) (rrsets : List HzRrset)
    (fqdn : Str) : HookResult :=
  match (shellCandidates fqdn).find? oracle with
  | none => ⟨0, none, rrsets⟩
  | some zoneName =>
    let recordName := hookRecordName fqdn zoneName
    let status := if rrsets.any (hzMatches recordName "TXT".data) then 200 else 404
    let remaining := rrsets.filter fun r => !(hzMatches recordName "TXT".data r)
    ⟨curlExitCode false status, none, remaining⟩

/-! ## Rendered nginx configurations (`nginx.py`) -/

/-- `_slug`: replace every character outside `[a-zA-Z0-9_]` with `_`. -/
def slug (domain : String) : String :=
  domain.map fun c => if c.isAlphanum || c = '_' then c else '_'

/-- `render_acme_config`: the bootstrap server block serving the ACME
challenge path from `webroot` on port 80. -/
def renderAcmeConfig (domain webroot : String) : String :=
  "server \x7b\n    listen 80;\n    listen [::]:80;\n    server_name "
    ++ domain
    ++ ";\n\n    location /.well-known/acme-challenge/ \x7b\n        root "
    ++ webroot
    ++ ";\n    \x7d\n\n    location / \x7b\n        return 301 http://$host$request_uri;\n    \x7d\n\x7d\n"

/-- `render_https_config`: the final TLS-terminating configuration. -/
def renderHttpsConfig (domain : String) (odooPort longpollingPort : Nat)
    (singleUpstream : Bool) (backendHost : String) : String :=
  let up := slug domain
  let lpUpstream := if singleUpstream then up ++ "_backend" else up ++ "_longpolling"
  let longpollingBlock :=
    if singleUpstream then ""
    else
      "\nupstream " ++ up ++ "_longpolling \x7b\n    server " ++ backendHost ++ ":"
        ++ toString longpollingPort ++ ";\n\x7d\n"
  "upstream " ++ up ++ "_backend \x7b\n    server " ++ backendHost ++ ":"
    ++ toString odooPort ++ ";\n\x7d\n"
    ++ longpollingBlock
    ++ "\n\nserver \x7b\n    listen 80;\n    listen [::]:80;\n    server_name "
    ++ domain
    ++ ";\n    return 301 https://$host$request_uri;\n\x7d\n\nserver \x7b\n    listen 443 ssl http2;\n    listen [::]:443 ssl http2;\n    server_name "
    ++ domain
    ++ ";\n\n    ssl_certificate /etc/letsencrypt/live/" ++ domain
    ++ "/fullchain.pem;\n    ssl_certificate_key /etc/letsencrypt/live/" ++ domain
    ++ "/privkey.pem;\n\n    client_max_body_size 500M;\n    proxy_read_timeout 720s;\n    proxy_connect_timeout 720s;\n    proxy_send_timeout 720s;\n\n    proxy_set_header Host $host;\n    proxy_set_header X-Forwarded-Host $host;\n    proxy_set_header X-Forwarded-For $proxy_add_x_forwarded_for;\n    proxy_set_header X-Forwarded-Proto $scheme;\n    proxy_set_header X-Real-IP $remote_addr;\n\n    location / \x7b\n        proxy_pass http://"
    ++ up
    ++ "_backend;\n        proxy_redirect off;\n    \x7d\n\n    location /longpolling \x7b\n        proxy_pass http://"
    ++ lpUpstream
    ++ ";\n    \x7d\n\n    location /websocket \x7b\n        proxy_pass http://"
    ++ lpUpstream
    ++ ";\n        proxy_http_version 1.1;\n        proxy_set_header Upgrade $http_upgrade;\n        proxy_set_header Connection \"upgrade\";\n    \x7d\n\n    location ~* /web/static/ \x7b\n        proxy_cache_valid 200 90m;\n        expires 864000;\n        proxy_pass http://"
    ++ up
    ++ "_backend;\n    \x7d\n\n    gzip on;\n    gzip_types text/css text/less text/plain text/xml application/xml application/json application/javascript;\n\x7d\n"

/-! ## The orchestrator (`cli.py`, `cmd_init` and `_dns_setup`)

`cmd_init` is modelled as a function from the parsed arguments and an
environment (env vars, provider zone tables, `nginx -t` verdicts, certbot
exit statuses, detected backend runtime) to a final state and an optional
error.  The state records the ordered list of externally visible side
effects, the content written at the domain's canonical site path
(`/etc/nginx/sites-available/<domain>`), and the configuration the running
proxy currently serves (set only by a successful reload).  Interactive
`_ask` prompts are resolved by the supplied arguments. -/

/-- One externally visible side effect of a run. -/
inductive Ev where
  | install
  | fetchIp (v6 : Bool)
  | manualPrompt
  | zoneQuery (name : Str)
  | upsertA (name value : Str)
  | upsertAAAA (name value : Str)
  | makeWebroot (path : String)
  | enableSite (domain : String)
  | writeConfig (content : String)
  | nginxTest (ok : Bool)
  | nginxReload
  | certbotHttp (domain : String)
  | certbotDns (domain : String) (wildcard : Bool)
  | renewalSetup
  | proxyMode
  | restartSvc (name : String)
  | ufwConfig
  deriving DecidableEq, Repr

/-- The error taxonomy of the run (each constructor corresponds to a
`RuntimeError` raise site or a failing external command). -/
inductive Err where
  | configError (msg : String)
  | zoneNotFound
  | certIssuanceFailed
  | proxyValidationFailed
  deriving DecidableEq, Repr

/-- Observable state of one run. -/
structure St where
  events : List Ev
  siteContent : Option String
  loaded : Option String
  deriving DecidableEq, Repr

/-- The empty starting state. -/
def St.init : St := ⟨[], none, none⟩

/-- Append one side effect to the log. -/
def St.log (s : St) (e : Ev) : St := { s with events := s.events ++ [e] }

/-- Parsed command-line arguments of `init` (interactive prompts already
resolved). -/
structure Args where
  domain : String
  email : String
  provider : String
  ipMode : String
  backendHost : String
  singleUpstream : Bool
  tlsChallenge : String
  wildcard : Bool
  restartService : Option Bool
  ufw : Bool

/-- The run's environment: credentials, public addresses, provider zone
tables, the `nginx -t` verdict on the current site content, certbot's exit
statuses, and the detected backend runtime. -/
structure Env where
  cloudflareToken : String
  hetznerToken : String
  ipv4 : Option String
  ipv6 : Option String
  cfZone : Str → Bool
  hzZone : Str → Bool
  nginxOk : Option String → Bool
  certbotHttpOk : Bool
  certbotDnsOk : Bool
  httpPort : Nat
  longpollingPort : Nat
  serviceName : Option String

/-- `write_site_config`: write `content` at the canonical site path. -/
def writeSite (s : St) (content : String) : St :=
  { s.log (.writeConfig content) with siteContent := some content }

/-- `test_and_reload_nginx`: run `nginx -t` on the on-disk configuration;
only when it passes, reload the proxy (which then serves the written
content).  A failing test raises (`check=True`), so the reload is not
reached and `loaded` is unchanged. -/
def testAndReload (env : Env) (s : St) : St × Option Err :=
  if env.nginxOk s.siteContent then
    ({ (s.log (.nginxTest true)).log .nginxReload with loaded := s.siteContent }, none)
  else
    (s.log (.nginxTest false), some .proxyValidationFailed)

/-- Replay a provider zone lookup into the event log. -/
def logZoneQueries (s : St) (qs : List Str) : St :=
  qs.foldl (fun a q => a.log (.zoneQuery q)) s

/-- `_dns_setup` (cli.py): fetch the public IPv4/IPv6 addresses, then
branch on the provider.  Manual mode prints the records and waits for
confirmation; Cloudflare and Hetzner check their token env var, resolve
the zone and upsert A/AAAA records for the wanted address families. -/
def dnsSetup (env : Env) (provider domain ipMode : String) (s : St) :
    St × Option Err :=
  let s := (s.log (.fetchIp false)).log (.fetchIp true)
  let wantV4 : Bool := ipMode = "ipv4" || ipMode = "dual"
  let wantV6 : Bool := ipMode = "ipv6" || ipMode = "dual"
  if provider = "none" then
    (s.log .manualPrompt, none)
  else if provider = "cloudflare" then
    if env.cloudflareToken = "" then
      (s, some (.configError "CLOUDFLARE_API_TOKEN is not set"))
    else
      let fz := findZone env.cfZone domain.data
      let s := logZoneQueries s fz.1
      match fz.2 with
      | .error () => (s, some .zoneNotFound)
      | .ok _ =>
        let s := match wantV4, env.ipv4 with
          | true, some ip => s.log (.upsertA domain.data ip.data)
          | _, _ => s
        let s := match wantV6, env.ipv6 with
          | true, some ip => s.log (.upsertAAAA domain.data ip.data)
          | _, _ => s
        (s, none)
  else if provider = "hetzner" then
    if env.hetznerToken = "" then
      (s, some (.configError "HETZNER_DNS_API_TOKEN is not set"))
    else
      let fz := findZone env.hzZone domain.data
      let s := logZoneQueries s fz.1
      match fz.2 with
      | .error () => (s, some .zoneNotFound)
      | .ok _ =>
        let s := match wantV4, env.ipv4 with
          | true, some ip => s.log (.upsertA domain.data ip.data)
          | _, _ => s
        let s := match wantV6, env.ipv6 with
          | true, some ip => s.log (.upsertAAAA domain.data ip.data)
          | _, _ => s
        (s, none)
  else
    (s, some (.configError ("Unknown DNS provider: " ++ provider)))

/-- The tail of `cmd_init` after certificate issuance succeeded: write the
final HTTPS config, test and reload, set up auto-renewal, enable
proxy_mode in the backend config, optionally restart the backend and
configure the firewall. -/
def finishInit (a : Args) (env : Env) (s : St) : St × Option Err :=
  let s := writeSite s
    (renderHttpsConfig a.domain env.httpPort env.longpollingPort
      a.singleUpstream a.backendHost)
  match testAndReload env s with
  | (s, some e) => (s, some e)
  | (s, none) =>
    let s := (s.log .renewalSetup).log .proxyMode
    let s := match a.restartService, env.serviceName with
      | some true, some n => s.log (.restartSvc n)
      | _, _ => s
    let s := if a.ufw then s.log .ufwConfig else s
    (s, none)

/-- `cmd_init` (cli.py): flag-combination check, backend detection, DNS
setup, site enablement, mode-dependent certificate issuance, final HTTPS
switchover. -/
def cmdInit (a : Args) (env : Env) : St × Option Err :=
  if a.wildcard && a.tlsChallenge ≠ "dns" then
    (St.init, some (.configError "--wildcard requires --tls-challenge dns"))
  else if a.domain = "" then
    (St.init, some (.configError "Domain is required"))
  else
    let s := St.init.log .install
    match dnsSetup env a.provider a.domain a.ipMode s with
    | (s, some e) => (s, some e)
    | (s, none) =>
      let webroot := "/var/www/" ++ a.domain
      let s := (s.log (.makeWebroot webroot)).log (.enableSite a.domain)
      if a.tlsChallenge = "http" then
        let s := writeSite s (renderAcmeConfig a.domain webroot)
        match testAndReload env s with
        | (s, some e) => (s, some e)
        | (s, none) =>
          let s := s.log (.certbotHttp a.domain)
          if env.certbotHttpOk then finishInit a env s
          else (s, some .certIssuanceFailed)
      else
        if a.provider ≠ "hetzner" then
          (s, some (.configError "DNS challenge automation currently requires --provider hetzner"))
        else if env.hetznerToken = "" then
          (s, some (.configError "HETZNER_DNS_API_TOKEN is not set"))
        else
          let s := s.log (.certbotDns a.domain a.wildcard)
          if env.certbotDnsOk then finishInit a env s
          else (s, some .certIssuanceFailed)

/-- Indices at which `pat` occurs as a contiguous substring of `s`; used to
state occurrence counts about the rendered configuration texts. -/
def occursAt (pat s : Str) : List Nat :=
  (List.range (s.length + 1)).filter fun i => pat.isPrefixOf (s.drop i)

end OdooNginxSetup

/-! # Theorems -/

namespace OdooNginxSetup

/-! ## Helper lemmas about zone resolution -/

/-- The outcome of the candidate walk is the first candidate the oracle
accepts. -/
theorem findZoneAux_snd (oracle : Str → Bool) (cs : List Str) :
    (findZoneAux oracle cs).2 =
      match cs.find? oracle with
      | some z => Except.ok z
      | none => Except.error () := by
  induction cs with
  | nil => rfl
  | cons c rest ih =>
    by_cases h : oracle c
    · simp [findZoneAux, h, List.find?_cons_of_pos]
    · simp [findZoneAux, h, List.find?_cons_of_neg, ih]

/-- The names queried during the walk are the rejected prefix of the
candidate list followed by the accepted candidate, if any. -/
theorem findZoneAux_fst (oracle : Str → Bool) (cs : List Str) :
    (findZoneAux oracle cs).1 =
      cs.takeWhile (fun c => !oracle c) ++
        (match cs.find? oracle with
         | some z => [z]
         | none => []) := by
  induction cs with
  | nil => rfl
  | cons c rest ih =>
    by_cases h : oracle c
    · simp [findZoneAux, h, List.takeWhile_cons, List.find?_cons_of_pos]
    · simp [findZoneAux, h, List.takeWhile_cons, List.find?_cons_of_neg, ih]

/-- A name without a dot yields no zone candidates at all. -/
theorem zoneCandidates_eq_nil (fqdn : Str) (h : '.' ∉ fqdn) :
    zoneCandidates fqdn = [] := by
  have hs : fqdn.splitOn '.' = [fqdn] := by
    unfold List.splitOn
    exact List.splitOnP_eq_single _ _ fun x hx => by
      simp only [beq_iff_eq]
      rintro rfl
      exact h hx
  simp [zoneCandidates, hs]

/-- C1 (amended).  The candidate sequence is the FQDN itself followed by
every shorter dot-suffix down to the final two labels (the last label
alone is excluded); the provider is queried for the candidates in order,
the first candidate it reports as an existing zone is returned, and the
lookup fails if no candidate matches. -/
theorem C1_zone_resolution :
    zoneCandidates "sub.host.example.co.uk".data =
      ["sub.host.example.co.uk".data, "host.example.co.uk".data,
       "example.co.uk".data, "co.uk".data] ∧
    (∀ (oracle : Str → Bool) (fqdn : Str),
      (findZone oracle fqdn).2 =
        match (zoneCandidates fqdn).find? oracle with
        | some z => Except.ok z
        | none => Except.error ()) ∧
    (∀ (oracle : Str → Bool) (fqdn : Str),
      (findZone oracle fqdn).1 =
        (zoneCandidates fqdn).takeWhile (fun c => !oracle c) ++
          (match (zoneCandidates fqdn).find? oracle with
           | some z => [z]
           | none => [])) :=
  ⟨by decide, fun o f => findZoneAux_snd o _, fun o f => findZoneAux_fst o _⟩

/-- C1 counterexample.  The claim's candidate sequence for
`sub.host.example.co.uk` omits the FQDN itself, but the code includes it:
the computed sequence is not the claimed three-element list, and a
provider whose only zone is `sub.host.example.co.uk` itself is found
(whereas under the claimed sequence no candidate would match). -/
theorem C1_counterexample :
    zoneCandidates "sub.host.example.co.uk".data ≠
      ["host.example.co.uk".data, "example.co.uk".data, "co.uk".data] ∧
    (findZone (fun c => c = "sub.host.example.co.uk".data)
        "sub.host.example.co.uk".data).2 =
      Except.ok "sub.host.example.co.uk".data ∧
    ((["host.example.co.uk".data, "example.co.uk".data, "co.uk".data] :
        List Str).find? (fun c => c = "sub.host.example.co.uk".data)) = none := by
  refine ⟨by decide, by decide, by decide⟩

/-- C10.  A single-label domain (no dot) produces an empty candidate
sequence, so zone resolution fails without a single provider query. -/
theorem C10_single_label_zone_not_found (oracle : Str → Bool) (fqdn : Str)
    (h : '.' ∉ fqdn) :
    findZone oracle fqdn = ([], Except.error ()) := by
  rw [findZone, zoneCandidates_eq_nil fqdn h]; rfl

theorem C10_single_label_zone_not_found_witness :
    '.' ∉ "localhost".data ∧
      findZone (fun _ => true) "localhost".data = ([], Except.error ()) :=
  ⟨by decide, C10_single_label_zone_not_found _ _ (by decide)⟩

/-! ## Relative record names -/

/-- Stripping the `.<zone>` suffix recovers exactly the subdomain part. -/
theorem relativeName_append (sub zoneName : Str) :
    relativeName (sub ++ '.' :: zoneName) zoneName = sub := by
  have hne : sub ++ '.' :: zoneName ≠ zoneName := by
    intro heq
    have := congrArg List.length heq
    simp only [List.length_append, List.length_cons] at this
    omega
  have hsuf : ('.' :: zoneName).isSuffixOf (sub ++ '.' :: zoneName) = true :=
    List.isSuffixOf_iff_suffix.mpr ⟨sub, rfl⟩
  have hlen : (sub ++ '.' :: zoneName).length - ('.' :: zoneName).length
      = sub.length := by
    simp [List.length_append]
  simp only [relativeName, if_neg hne, hsuf, if_true, hlen]
  exact List.take_left sub _

/-- C8.  The relative record name is the apex placeholder `@` when the
FQDN equals the zone name, and the FQDN with the trailing `.<zone>` suffix
stripped otherwise; in particular the three example pairs of the spec. -/
theorem C8_relative_name :
    (∀ zoneName : Str, relativeName zoneName zoneName = ['@']) ∧
    (∀ sub zoneName : Str, relativeName (sub ++ '.' :: zoneName) zoneName = sub) ∧
    relativeName "example.com".data "example.com".data = "@".data ∧
    relativeName "www.example.com".data "example.com".data = "www".data ∧
    relativeName "_acme-challenge.www.example.com".data "example.com".data =
      "_acme-challenge.www".data :=
  ⟨fun z => by simp [relativeName], relativeName_append, by decide, by decide, by decide⟩

/-! ## The rendered ACME bootstrap configuration -/

set_option maxRecDepth 40000 in
/-- C4 (code bug).  For domain `example.com` and webroot
`/var/www/example.com` the rendered bootstrap configuration listens on
port 80 without TLS (no `ssl` token anywhere) and serves the ACME
challenge path from the webroot, but its catch-all location redirects to
`http://$host$request_uri` — a plaintext self-redirect — and the string
`https` does not occur in the configuration at all, contradicting the
specified redirect to https. -/
theorem C4_acme_config_redirect_target :
    (occursAt "listen 80;".data
      (renderAcmeConfig "example.com" "/var/www/example.com").data).length = 1 ∧
    (occursAt "ssl".data
      (renderAcmeConfig "example.com" "/var/www/example.com").data).length = 0 ∧
    (occursAt
      "location /.well-known/acme-challenge/ \x7b\n        root /var/www/example.com;\n    \x7d".data
      (renderAcmeConfig "example.com" "/var/www/example.com").data).length = 1 ∧
    (occursAt "location / \x7b\n        return 301 http://$host$request_uri;\n    \x7d".data
      (renderAcmeConfig "example.com" "/var/www/example.com").data).length = 1 ∧
    (occursAt "https".data
      (renderAcmeConfig "example.com" "/var/www/example.com").data).length = 0 := by
  refine ⟨by decide, by decide, by decide, by decide, by decide⟩

/-! ## DNS-01 hook script failure semantics -/

/-- C9.  When no dot-suffix of the validated name is a zone the provider
knows, the auth script exits with status 1 and a diagnostic on stderr
without touching the provider's records, while the cleanup script exits
with status 0 in every situation — in particular in the same
zone-not-found case and when the TXT record it would delete is already
absent (the DELETE is issued by `curl` without `--fail`, so an HTTP 404
still exits 0 and the record table is left unchanged). -/
theorem C9_hook_failure_semantics :
    (∀ (oracle : Str → Bool) (rrsets : List HzRrset) (fqdn validation : Str),
      (shellCandidates fqdn).find? oracle = none →
        authHookRun oracle rrsets fqdn validation =
          ⟨1, some ("Could not determine zone for ".data ++ fqdn), rrsets⟩) ∧
    (∀ (oracle : Str → Bool) (rrsets : List HzRrset) (fqdn : Str),
      (cleanupHookRun oracle rrsets fqdn).exitCode = 0) ∧
    (∀ (oracle : Str → Bool) (rrsets : List HzRrset) (fqdn zoneName : Str),
      (shellCandidates fqdn).find? oracle = some zoneName →
      rrsets.any (hzMatches (hookRecordName fqdn zoneName) "TXT".data) = false →
        cleanupHookRun oracle rrsets fqdn = ⟨0, none, rrsets⟩) := by
  refine ⟨?_, ?_, ?_⟩
  · intro oracle rrsets fqdn validation h
    simp [authHookRun, h]
  · intro oracle rrsets fqdn
    unfold cleanupHookRun
    cases h : (shellCandidates fqdn).find? oracle with
    | none => rfl
    | some z => simp [curlExitCode]
  · intro oracle rrsets fqdn zoneName h habs
    have hnone : ∀ r ∈ rrsets,
        (!hzMatches (hookRecordName fqdn zoneName) "TXT".data r) = true := by
      intro r hr
      have := (List.any_eq_false.mp habs) r hr
      simp [this]
    simp [cleanupHookRun, h, habs, curlExitCode, List.filter_eq_self.mpr hnone]

theorem C9_hook_failure_semantics_witness :
    ((shellCandidates "app.example.com".data).find? (fun _ => false) = none ∧
      authHookRun (fun _ => false) [] "app.example.com".data "val".data =
        ⟨1, some ("Could not determine zone for ".data ++ "app.example.com".data), []⟩) ∧
    (cleanupHookRun (fun _ => false) [] "app.example.com".data).exitCode = 0 :=
  ⟨⟨by decide, C9_hook_failure_semantics.1 _ _ _ _ (by decide)⟩,
    C9_hook_failure_semantics.2.1 _ _ _⟩

/-! ## Upsert lemmas -/

/-- The freshly created Cloudflare record matches its own `(type, name)`
filter. -/
theorem cfMatches_new (rtype name content : Str) (proxied : Bool) (i : Nat) :
    cfMatches rtype name ⟨i, rtype, name, content, 120, proxied⟩ = true := by
  simp [cfMatches]

/-- Update case of the Cloudflare upsert: when exactly one record matches
`(type, name)` and record ids are unique, replacing the record with the
head id leaves exactly the updated record matching. -/
theorem cf_filter_map_update (rtype name content : Str) (proxied : Bool) :
    ∀ (recs : List CfRecord) (e : CfRecord),
      recs.filter (cfMatches rtype name) = [e] →
      (recs.map (·.id)).Nodup →
      (recs.map fun r =>
          if r.id = e.id then ⟨r.id, rtype, name, content, 120, proxied⟩ else r).filter
        (cfMatches rtype name) = [⟨e.id, rtype, name, content, 120, proxied⟩]
  | [], e, hfil, _ => by simp at hfil
  | r :: rest, e, hfil, hnd => by
    rw [List.map_cons, List.nodup_cons] at hnd
    by_cases hm : cfMatches rtype name r = true
    · rw [List.filter_cons_of_pos hm] at hfil
      injection hfil with h1 h2
      subst h1
      have hrest : ∀ r' ∈ rest,
          (fun r' => if r'.id = r.id
            then (⟨r'.id, rtype, name, content, 120, proxied⟩ : CfRecord)
            else r') r' = r' := by
        intro r' hr'
        have hne : r'.id ≠ r.id := by
          intro hid
          exact hnd.1 (hid ▸ List.mem_map_of_mem (·.id) hr')
        simp [hne]
      rw [List.map_cons, if_pos rfl,
        List.filter_cons_of_pos (cfMatches_new rtype name content proxied r.id),
        List.map_congr_left hrest]
      simp [h2]
    · rw [List.filter_cons_of_neg hm] at hfil
      have hmem : e ∈ rest :=
        List.mem_of_mem_filter (hfil ▸ List.mem_singleton.mpr rfl)
      have hid : r.id ≠ e.id := by
        intro hideq
        exact hnd.1 (hideq ▸ List.mem_map_of_mem (·.id) hmem)
      rw [List.map_cons, if_neg hid, List.filter_cons_of_neg hm]
      exact cf_filter_map_update rtype name content proxied rest e hfil hnd.2

/-- Create case of the Cloudflare upsert: with no prior match, appending
the new record leaves exactly that record matching. -/
theorem cf_filter_append_new (rtype name content : Str) (proxied : Bool)
    (recs : List CfRecord) (fresh : Nat)
    (hfil : recs.filter (cfMatches rtype name) = []) :
    (recs ++ [(⟨fresh, rtype, name, content, 120, proxied⟩ : CfRecord)]).filter
      (cfMatches rtype name) = [⟨fresh, rtype, name, content, 120, proxied⟩] := by
  rw [List.filter_append, hfil]
  simp [cfMatches]

/-- A Cloudflare upsert on a duplicate-free state with at most one prior
match leaves exactly one matching record, holding the new content. -/
theorem cfUpsert_single (recs : List CfRecord) (rtype name content : Str)
    (proxied : Bool) (fresh : Nat)
    (hnd : (recs.map (·.id)).Nodup)
    (hle : (recs.filter (cfMatches rtype name)).length ≤ 1) :
    ∃ i, (cfUpsertRecord recs rtype name content proxied fresh).filter
        (cfMatches rtype name) = [⟨i, rtype, name, content, 120, proxied⟩] := by
  cases hfil : recs.filter (cfMatches rtype name) with
  | nil =>
    refine ⟨fresh, ?_⟩
    simp only [cfUpsertRecord, hfil]
    exact cf_filter_append_new rtype name content proxied recs fresh hfil
  | cons e tail =>
    have htail : tail = [] := by
      rw [hfil] at hle
      simpa using hle
    subst htail
    refine ⟨e.id, ?_⟩
    simp only [cfUpsertRecord, hfil]
    exact cf_filter_map_update rtype name content proxied recs e hfil hnd

/-- A Cloudflare upsert preserves uniqueness of record ids when the fresh
id is genuinely fresh. -/
theorem cfUpsert_ids_nodup (recs : List CfRecord) (rtype name content : Str)
    (proxied : Bool) (fresh : Nat)
    (hnd : (recs.map (·.id)).Nodup) (hfresh : fresh ∉ recs.map (·.id)) :
    ((cfUpsertRecord recs rtype name content proxied fresh).map (·.id)).Nodup := by
  cases hfil : recs.filter (cfMatches rtype name) with
  | nil =>
    simp only [cfUpsertRecord, hfil, List.map_append]
    rw [List.nodup_append]
    refine ⟨hnd, List.nodup_singleton _, ?_⟩
    intro a ha hb
    simp at hb
    exact hfresh (hb ▸ ha)
  | cons e tail =>
    simp only [cfUpsertRecord, hfil, List.map_map]
    have heq : ((fun r : CfRecord => r.id) ∘ fun r =>
        if r.id = e.id then ⟨r.id, rtype, name, content, 120, proxied⟩ else r) =
        fun r : CfRecord => r.id := by
      funext r
      by_cases h : r.id = e.id <;> simp [h]
    rw [heq]
    exact hnd

/-- A Hetzner upsert (without `fail_if_exists`) always succeeds and leaves
exactly one RRset matching the relative `(name, type)`, holding the single
new value. -/
theorem hzUpsert_single (rrsets : List HzRrset) (zoneName rtype fqdn content : Str) :
    ∃ l, hzUpsertRecord rrsets zoneName rtype fqdn content false = .ok l ∧
      l.filter (hzMatches (relativeName fqdn zoneName) rtype)
        = [⟨relativeName fqdn zoneName, rtype, 120, [content]⟩] := by
  refine ⟨_, rfl, ?_⟩
  rw [List.filter_append, List.filter_filter]
  have h1 : rrsets.filter (fun a =>
      hzMatches (relativeName fqdn zoneName) rtype a &&
        !hzMatches (relativeName fqdn zoneName) rtype a) = [] := by
    apply List.filter_eq_nil_iff.mpr
    intro a _
    simp
  rw [h1]
  simp [hzMatches]

/-- C2 (amended).  After a Hetzner upsert exactly one RRset with the
record's `(name, type)` exists and holds the new value, for every prior
state.  The Cloudflare upsert updates only the first matching record, so
the same holds there provided the prior state holds at most one record of
that `(name, type)` (and provider ids are unique) — in particular on all
states the client itself produces: upserting twice with identical inputs
leaves exactly one matching record, and upserting again with a changed
value leaves exactly one matching record holding the new value and none
holding the old. -/
theorem C2_upsert_exactly_one :
    (∀ (rrsets : List HzRrset) (zoneName rtype fqdn content : Str),
      ∃ l, hzUpsertRecord rrsets zoneName rtype fqdn content false = .ok l ∧
        l.filter (hzMatches (relativeName fqdn zoneName) rtype)
          = [⟨relativeName fqdn zoneName, rtype, 120, [content]⟩]) ∧
    (∀ (recs : List CfRecord) (rtype name content : Str) (proxied : Bool) (fresh : Nat),
      (recs.map (·.id)).Nodup →
      (recs.filter (cfMatches rtype name)).length ≤ 1 →
      ∃ i, (cfUpsertRecord recs rtype name content proxied fresh).filter
          (cfMatches rtype name) = [⟨i, rtype, name, content, 120, proxied⟩]) ∧
    (∀ (recs : List CfRecord) (rtype name v1 v2 : Str) (proxied : Bool) (f1 f2 : Nat),
      (recs.map (·.id)).Nodup →
      (recs.filter (cfMatches rtype name)).length ≤ 1 →
      f1 ∉ recs.map (·.id) →
      ∃ i, (cfUpsertRecord (cfUpsertRecord recs rtype name v1 proxied f1)
              rtype name v2 proxied f2).filter (cfMatches rtype name)
          = [⟨i, rtype, name, v2, 120, proxied⟩] ∧
        ∀ r ∈ cfUpsertRecord (cfUpsertRecord recs rtype name v1 proxied f1)
            rtype name v2 proxied f2,
          cfMatches rtype name r = true → r.content = v2) ∧
    (∀ (rrsets : List HzRrset) (zoneName rtype fqdn v1 v2 : Str),
      ∃ l1 l2, hzUpsertRecord rrsets zoneName rtype fqdn v1 false = .ok l1 ∧
        hzUpsertRecord l1 zoneName rtype fqdn v2 false = .ok l2 ∧
        l2.filter (hzMatches (relativeName fqdn zoneName) rtype)
          = [⟨relativeName fqdn zoneName, rtype, 120, [v2]⟩]) := by
  refine ⟨hzUpsert_single, cfUpsert_single, ?_, ?_⟩
  · intro recs rtype name v1 v2 proxied f1 f2 hnd hle hf1
    obtain ⟨i1, hfil1⟩ := cfUpsert_single recs rtype name v1 proxied f1 hnd hle
    have hnd1 := cfUpsert_ids_nodup recs rtype name v1 proxied f1 hnd hf1
    have hle1 : ((cfUpsertRecord recs rtype name v1 proxied f1).filter
        (cfMatches rtype name)).length ≤ 1 := by
      rw [hfil1]; simp
    obtain ⟨i2, hfil2⟩ :=
      cfUpsert_single (cfUpsertRecord recs rtype name v1 proxied f1)
        rtype name v2 proxied f2 hnd1 hle1
    refine ⟨i2, hfil2, ?_⟩
    intro r hr hm
    have : r ∈ (cfUpsertRecord (cfUpsertRecord recs rtype name v1 proxied f1)
        rtype name v2 proxied f2).filter (cfMatches rtype name) :=
      List.mem_filter.mpr ⟨hr, hm⟩
    rw [hfil2] at this
    simp at this
    rw [this]
  · intro rrsets zoneName rtype fqdn v1 v2
    obtain ⟨l1, h1, _⟩ := hzUpsert_single rrsets zoneName rtype fqdn v1
    obtain ⟨l2, h2, hfil⟩ := hzUpsert_single l1 zoneName rtype fqdn v2
    exact ⟨l1, l2, h1, h2, hfil⟩

theorem C2_upsert_exactly_one_witness :
    (([⟨1, "A".data, "www".data, "1.1.1.1".data, 120, false⟩] :
        List CfRecord).map (·.id)).Nodup ∧
    (([⟨1, "A".data, "www".data, "1.1.1.1".data, 120, false⟩] :
        List CfRecord).filter (cfMatches "A".data "www".data)).length ≤ 1 ∧
    ∃ i, (cfUpsertRecord [⟨1, "A".data, "www".data, "1.1.1.1".data, 120, false⟩]
        "A".data "www".data "2.2.2.2".data false 7).filter
          (cfMatches "A".data "www".data)
        = [⟨i, "A".data, "www".data, "2.2.2.2".data, 120, false⟩] :=
  ⟨by decide, by decide,
    C2_upsert_exactly_one.2.1 _ _ _ _ _ _ (by decide) (by decide)⟩

/-- C2 counterexample.  On a prior state that already holds two `A`
records named `example.com` (which the Cloudflare API permits), the
Cloudflare upsert updates only the first one: afterwards two records with
that `(name, type)` remain and the second still holds the old value —
refuting the claim's "for every prior provider state, exactly one record
with that `(name, type)` exists ... and none with the old". -/
theorem C2_counterexample :
    ((cfUpsertRecord
        [⟨1, "A".data, "example.com".data, "1.1.1.1".data, 120, false⟩,
         ⟨2, "A".data, "example.com".data, "2.2.2.2".data, 120, false⟩]
        "A".data "example.com".data "3.3.3.3".data false 5).filter
      (cfMatches "A".data "example.com".data)).length = 2 ∧
    (⟨2, "A".data, "example.com".data, "2.2.2.2".data, 120, false⟩ : CfRecord) ∈
      cfUpsertRecord
        [⟨1, "A".data, "example.com".data, "1.1.1.1".data, 120, false⟩,
         ⟨2, "A".data, "example.com".data, "2.2.2.2".data, 120, false⟩]
        "A".data "example.com".data "3.3.3.3".data false 5 := by
  refine ⟨by decide, by decide⟩

/-! ## Orchestrator lemmas -/

/-- Replaying zone queries only appends `zoneQuery` events. -/
theorem logZoneQueries_st (qs : List Str) : ∀ s : St,
    logZoneQueries s qs = { s with events := s.events ++ qs.map Ev.zoneQuery } := by
  induction qs with
  | nil => intro s; simp [logZoneQueries]
  | cons q rest ih =>
    intro s
    show logZoneQueries (s.log (.zoneQuery q)) rest = _
    rw [ih]
    simp [St.log]

/-- C7.  Requesting wildcard issuance together with a non-DNS challenge
mode fails immediately with the `--wildcard requires --tls-challenge dns`
configuration error; the final state is the initial one, so no network
call, installation, or file write has been attempted. -/
theorem C7_wildcard_requires_dns (a : Args) (env : Env)
    (hw : a.wildcard = true) (hc : a.tlsChallenge ≠ "dns") :
    cmdInit a env =
      (St.init, some (.configError "--wildcard requires --tls-challenge dns")) := by
  simp [cmdInit, hw, hc]

theorem C7_wildcard_requires_dns_witness :
    (Args.mk "app.example.com" "admin@app.example.com" "none" "ipv4"
        "127.0.0.1" false "http" true none false).wildcard = true ∧
    (Args.mk "app.example.com" "admin@app.example.com" "none" "ipv4"
        "127.0.0.1" false "http" true none false).tlsChallenge ≠ "dns" ∧
    cmdInit
        (Args.mk "app.example.com" "admin@app.example.com" "none" "ipv4"
          "127.0.0.1" false "http" true none false)
        (Env.mk "" "" none none (fun _ => false) (fun _ => false)
          (fun _ => false) false false 8069 8072 none) =
      (St.init, some (.configError "--wildcard requires --tls-challenge dns")) :=
  ⟨rfl, by decide, C7_wildcard_requires_dns _ _ rfl (by decide)⟩

/-- Manual DNS mode: the setup only fetches the public addresses and
prompts for confirmation. -/
theorem dnsSetup_none (env : Env) (domain ipMode : String) (s : St) :
    dnsSetup env "none" domain ipMode s =
      (((s.log (.fetchIp false)).log (.fetchIp true)).log .manualPrompt, none) := by
  simp [dnsSetup]

/-- Cloudflare with an unset `CLOUDFLARE_API_TOKEN`: the setup raises
after the address fetches, before any provider call. -/
theorem dnsSetup_cf_no_token (env : Env) (domain ipMode : String) (s : St)
    (h : env.cloudflareToken = "") :
    dnsSetup env "cloudflare" domain ipMode s =
      ((s.log (.fetchIp false)).log (.fetchIp true),
        some (.configError "CLOUDFLARE_API_TOKEN is not set")) := by
  simp [dnsSetup, h]

/-- Hetzner with an unset `HETZNER_DNS_API_TOKEN`: the setup raises after
the address fetches, before any provider call. -/
theorem dnsSetup_hz_no_token (env : Env) (domain ipMode : String) (s : St)
    (h : env.hetznerToken = "") :
    dnsSetup env "hetzner" domain ipMode s =
      ((s.log (.fetchIp false)).log (.fetchIp true),
        some (.configError "HETZNER_DNS_API_TOKEN is not set")) := by
  simp [dnsSetup, h]

/-- Hetzner in IPv4 mode with a zone found: the setup queries the
candidates and upserts one A record. -/
theorem dnsSetup_hz_found (env : Env) (domain : String) (s : St)
    (htok : env.hetznerToken ≠ "") (qs : List Str) (z : Str)
    (hfz : findZone env.hzZone domain.data = (qs, .ok z))
    (ip : String) (hip : env.ipv4 = some ip) :
    dnsSetup env "hetzner" domain "ipv4" s =
      ({ s with events := s.events ++ [.fetchIp false, .fetchIp true]
          ++ qs.map Ev.zoneQuery ++ [.upsertA domain.data ip.data] }, none) := by
  simp [dnsSetup, htok, hfz, hip, logZoneQueries_st, St.log]

/-- C5 (amended).  Each missing-input check raises a `ConfigurationError`
the moment it is reached and no DNS, certificate, or proxy-configuration
side effect is ever attempted afterwards — but the checks are not all
before the first side effect of the run: the provider-token checks run
after tool installation, and the DNS-01-requires-hetzner check runs after
installation, DNS setup, and site enablement.  (The wildcard
flag-combination check alone precedes every side effect, see C7.) -/
theorem C5_config_error_checkpoints :
    (∀ (a : Args) (env : Env),
      a.wildcard = false → a.domain ≠ "" → a.provider = "cloudflare" →
      env.cloudflareToken = "" →
      cmdInit a env =
        (⟨[.install, .fetchIp false, .fetchIp true], none, none⟩,
          some (.configError "CLOUDFLARE_API_TOKEN is not set"))) ∧
    (∀ (a : Args) (env : Env),
      a.wildcard = false → a.domain ≠ "" → a.provider = "hetzner" →
      env.hetznerToken = "" →
      cmdInit a env =
        (⟨[.install, .fetchIp false, .fetchIp true], none, none⟩,
          some (.configError "HETZNER_DNS_API_TOKEN is not set"))) ∧
    (∀ (a : Args) (env : Env),
      a.wildcard = false → a.domain ≠ "" → a.provider = "none" →
      a.tlsChallenge ≠ "http" →
      cmdInit a env =
        (⟨[.install, .fetchIp false, .fetchIp true, .manualPrompt,
            .makeWebroot ("/var/www/" ++ a.domain), .enableSite a.domain],
            none, none⟩,
          some (.configError
            "DNS challenge automation currently requires --provider hetzner"))) := by
  refine ⟨?_, ?_, ?_⟩
  · intro a env hw hd hp htok
    simp [cmdInit, hw, hd, hp, dnsSetup_cf_no_token env a.domain a.ipMode _ htok,
      St.init, St.log]
  · intro a env hw hd hp htok
    simp [cmdInit, hw, hd, hp, dnsSetup_hz_no_token env a.domain a.ipMode _ htok,
      St.init, St.log]
  · intro a env hw hd hp hc
    simp [cmdInit, hw, hd, hp, hc, dnsSetup_none env a.domain a.ipMode _,
      St.init, St.log]

theorem C5_config_error_checkpoints_witness :
    (Args.mk "app.example.com" "admin@app.example.com" "cloudflare" "ipv4"
        "127.0.0.1" false "http" false none false).wildcard = false ∧
    (Args.mk "app.example.com" "admin@app.example.com" "cloudflare" "ipv4"
        "127.0.0.1" false "http" false none false).domain ≠ "" ∧
    cmdInit
        (Args.mk "app.example.com" "admin@app.example.com" "cloudflare" "ipv4"
          "127.0.0.1" false "http" false none false)
        (Env.mk "" "" none none (fun _ => false) (fun _ => false)
          (fun _ => false) false false 8069 8072 none) =
      (⟨[.install, .fetchIp false, .fetchIp true], none, none⟩,
        some (.configError "CLOUDFLARE_API_TOKEN is not set")) :=
  ⟨rfl, by decide,
    C5_config_error_checkpoints.1 _ _ rfl (by decide) rfl rfl⟩

/-- C5 counterexample.  With the Cloudflare provider selected and
`CLOUDFLARE_API_TOKEN` unset, the run does fail with a
`ConfigurationError` — but only after the tool-installation side effect
has been attempted, refuting "no side effect is attempted". -/
theorem C5_counterexample :
    (cmdInit
        (Args.mk "app.example.com" "admin@app.example.com" "cloudflare" "ipv4"
          "127.0.0.1" false "http" false none false)
        (Env.mk "" "" none none (fun _ => false) (fun _ => false)
          (fun _ => false) false false 8069 8072 none)).2 =
      some (.configError "CLOUDFLARE_API_TOKEN is not set") ∧
    Ev.install ∈ (cmdInit
        (Args.mk "app.example.com" "admin@app.example.com" "cloudflare" "ipv4"
          "127.0.0.1" false "http" false none false)
        (Env.mk "" "" none none (fun _ => false) (fun _ => false)
          (fun _ => false) false false 8069 8072 none)).1.events := by
  refine ⟨by decide, by decide⟩

/-- Write-then-validate-then-reload, validation passing: the reload event
follows the successful test and the written content becomes the served
one. -/
theorem testAndReload_write_ok (env : Env) (s : St) (content : String)
    (h : env.nginxOk (some content) = true) :
    testAndReload env (writeSite s content) =
      ({ events := s.events ++ [.writeConfig content, .nginxTest true, .nginxReload],
         siteContent := some content, loaded := some content }, none) := by
  simp [testAndReload, writeSite, St.log, h]

/-- Write-then-validate-then-reload, validation failing: no reload event
is emitted and the served configuration is unchanged. -/
theorem testAndReload_write_fail (env : Env) (s : St) (content : String)
    (h : env.nginxOk (some content) = false) :
    testAndReload env (writeSite s content) =
      ({ events := s.events ++ [.writeConfig content, .nginxTest false],
         siteContent := some content, loaded := s.loaded },
        some .proxyValidationFailed) := by
  simp [testAndReload, writeSite, St.log, h]

/-- C3.  Every proxy configuration transition writes the content to the
canonical path, then validates, then reloads; when validation fails the
reload is never invoked and the previously loaded configuration keeps
serving.  In particular, in a run whose Acme step succeeded but whose
Https configuration fails validation, the final served configuration is
still the Acme one and the run aborts with `ProxyValidationFailed`. -/
theorem C3_validate_before_reload :
    (∀ (env : Env) (s : St) (content : String),
      env.nginxOk (some content) = true →
        testAndReload env (writeSite s content) =
          ({ events := s.events ++ [.writeConfig content, .nginxTest true, .nginxReload],
             siteContent := some content, loaded := some content }, none)) ∧
    (∀ (env : Env) (s : St) (content : String),
      env.nginxOk (some content) = false →
        testAndReload env (writeSite s content) =
          ({ events := s.events ++ [.writeConfig content, .nginxTest false],
             siteContent := some content, loaded := s.loaded },
            some .proxyValidationFailed)) ∧
    (∀ (a : Args) (env : Env),
      a.wildcard = false → a.domain ≠ "" → a.provider = "none" →
      a.tlsChallenge = "http" →
      env.nginxOk (some (renderAcmeConfig a.domain ("/var/www/" ++ a.domain))) = true →
      env.certbotHttpOk = true →
      env.nginxOk (some (renderHttpsConfig a.domain env.httpPort
        env.longpollingPort a.singleUpstream a.backendHost)) = false →
      cmdInit a env =
        ({ events := [.install, .fetchIp false, .fetchIp true, .manualPrompt,
            .makeWebroot ("/var/www/" ++ a.domain), .enableSite a.domain,
            .writeConfig (renderAcmeConfig a.domain ("/var/www/" ++ a.domain)),
            .nginxTest true, .nginxReload, .certbotHttp a.domain,
            .writeConfig (renderHttpsConfig a.domain env.httpPort
              env.longpollingPort a.singleUpstream a.backendHost),
            .nginxTest false],
           siteContent := some (renderHttpsConfig a.domain env.httpPort
             env.longpollingPort a.singleUpstream a.backendHost),
           loaded := some (renderAcmeConfig a.domain ("/var/www/" ++ a.domain)) },
          some .proxyValidationFailed)) := by
  refine ⟨testAndReload_write_ok, testAndReload_write_fail, ?_⟩
  intro a env hw hd hp hc hok1 hcb hok2
  simp [cmdInit, hw, hd, hp, hc, dnsSetup_none, finishInit, St.init, St.log,
    testAndReload_write_ok, testAndReload_write_fail, hok1, hok2, hcb]

set_option maxRecDepth 100000 in
theorem C3_validate_before_reload_witness :
    (Env.mk "" "" none none (fun _ => false) (fun _ => false)
        (fun c => c = some (renderAcmeConfig "app.example.com"
          "/var/www/app.example.com")) true false 8069 8072 none).nginxOk
      (some (renderAcmeConfig "app.example.com" "/var/www/app.example.com")) = true ∧
    (Env.mk "" "" none none (fun _ => false) (fun _ => false)
        (fun c => c = some (renderAcmeConfig "app.example.com"
          "/var/www/app.example.com")) true false 8069 8072 none).nginxOk
      (some (renderHttpsConfig "app.example.com" 8069 8072 false "127.0.0.1")) = false ∧
    cmdInit
        (Args.mk "app.example.com" "admin@app.example.com" "none" "ipv4"
          "127.0.0.1" false "http" false none false)
        (Env.mk "" "" none none (fun _ => false) (fun _ => false)
          (fun c => c = some (renderAcmeConfig "app.example.com"
            "/var/www/app.example.com")) true false 8069 8072 none) =
      ({ events := [.install, .fetchIp false, .fetchIp true, .manualPrompt,
          .makeWebroot "/var/www/app.example.com", .enableSite "app.example.com",
          .writeConfig (renderAcmeConfig "app.example.com" "/var/www/app.example.com"),
          .nginxTest true, .nginxReload, .certbotHttp "app.example.com",
          .writeConfig (renderHttpsConfig "app.example.com" 8069 8072 false "127.0.0.1"),
          .nginxTest false],
         siteContent := some (renderHttpsConfig "app.example.com" 8069 8072 false "127.0.0.1"),
         loaded := some (renderAcmeConfig "app.example.com" "/var/www/app.example.com") },
        some .proxyValidationFailed) :=
  ⟨by decide, by decide,
    C3_validate_before_reload.2.2 _ _ rfl (by decide) rfl rfl (by decide) rfl (by decide)⟩

/-- C6 (amended).  In HTTP-01 mode a successful run installs the Acme
bootstrap configuration and reloads before certbot is invoked, and
installs the Https configuration only afterwards (sequence none → Acme →
Https).  In DNS-01 mode, however, no Acme bootstrap is installed at all:
certbot runs with the DNS hooks directly after site enablement and the
only configuration ever written is the Https one (sequence none →
Https). -/
theorem C6_config_install_sequence :
    (∀ (a : Args) (env : Env),
      a.wildcard = false → a.domain ≠ "" → a.provider = "none" →
      a.tlsChallenge = "http" →
      env.nginxOk (some (renderAcmeConfig a.domain ("/var/www/" ++ a.domain))) = true →
      env.certbotHttpOk = true →
      env.nginxOk (some (renderHttpsConfig a.domain env.httpPort
        env.longpollingPort a.singleUpstream a.backendHost)) = true →
      a.restartService = none → a.ufw = false →
      cmdInit a env =
        ({ events := [.install, .fetchIp false, .fetchIp true, .manualPrompt,
            .makeWebroot ("/var/www/" ++ a.domain), .enableSite a.domain,
            .writeConfig (renderAcmeConfig a.domain ("/var/www/" ++ a.domain)),
            .nginxTest true, .nginxReload, .certbotHttp a.domain,
            .writeConfig (renderHttpsConfig a.domain env.httpPort
              env.longpollingPort a.singleUpstream a.backendHost),
            .nginxTest true, .nginxReload, .renewalSetup, .proxyMode],
           siteContent := some (renderHttpsConfig a.domain env.httpPort
             env.longpollingPort a.singleUpstream a.backendHost),
           loaded := some (renderHttpsConfig a.domain env.httpPort
             env.longpollingPort a.singleUpstream a.backendHost) },
          none)) ∧
    (∀ (a : Args) (env : Env) (qs : List Str) (z : Str) (ip : String),
      a.domain ≠ "" → a.provider = "hetzner" → a.tlsChallenge = "dns" →
      a.ipMode = "ipv4" → env.hetznerToken ≠ "" →
      findZone env.hzZone a.domain.data = (qs, .ok z) →
      env.ipv4 = some ip →
      env.certbotDnsOk = true →
      env.nginxOk (some (renderHttpsConfig a.domain env.httpPort
        env.longpollingPort a.singleUpstream a.backendHost)) = true →
      a.restartService = none → a.ufw = false →
      cmdInit a env =
        ({ events := [.install, .fetchIp false, .fetchIp true]
            ++ qs.map Ev.zoneQuery
            ++ [.upsertA a.domain.data ip.data,
              .makeWebroot ("/var/www/" ++ a.domain), .enableSite a.domain,
              .certbotDns a.domain a.wildcard,
              .writeConfig (renderHttpsConfig a.domain env.httpPort
                env.longpollingPort a.singleUpstream a.backendHost),
              .nginxTest true, .nginxReload, .renewalSetup, .proxyMode],
           siteContent := some (renderHttpsConfig a.domain env.httpPort
             env.longpollingPort a.singleUpstream a.backendHost),
           loaded := some (renderHttpsConfig a.domain env.httpPort
             env.longpollingPort a.singleUpstream a.backendHost) },
          none)) := by
  constructor
  · intro a env hw hd hp hc hok1 hcb hok2 hrs hufw
    simp [cmdInit, hw, hd, hp, hc, dnsSetup_none, finishInit, St.init, St.log,
      testAndReload_write_ok, hok1, hok2, hcb, hrs, hufw]
  · intro a env qs z ip hd hp hc him htok hfz hip hcb hok hrs hufw
    simp [cmdInit, hd, hp, hc, him, finishInit, St.init, St.log,
      dnsSetup_hz_found env a.domain ⟨[.install], none, none⟩ htok qs z hfz ip hip,
      testAndReload_write_ok, htok, hok, hcb, hrs, hufw]

set_option maxRecDepth 100000 in
theorem C6_config_install_sequence_witness :
    findZone (fun c => c = "example.com".data) "app.example.com".data =
      (["app.example.com".data, "example.com".data], .ok "example.com".data) ∧
    cmdInit
        (Args.mk "app.example.com" "admin@app.example.com" "hetzner" "ipv4"
          "127.0.0.1" false "dns" false none false)
        (Env.mk "" "hztok" (some "1.2.3.4") none (fun _ => false)
          (fun c => c = "example.com".data) (fun _ => true) true true
          8069 8072 none) =
      ({ events := [.install, .fetchIp false, .fetchIp true]
          ++ (["app.example.com".data, "example.com".data] : List Str).map Ev.zoneQuery
          ++ [.upsertA "app.example.com".data "1.2.3.4".data,
            .makeWebroot "/var/www/app.example.com", .enableSite "app.example.com",
            .certbotDns "app.example.com" false,
            .writeConfig (renderHttpsConfig "app.example.com" 8069 8072 false "127.0.0.1"),
            .nginxTest true, .nginxReload, .renewalSetup, .proxyMode],
         siteContent := some (renderHttpsConfig "app.example.com" 8069 8072 false "127.0.0.1"),
         loaded := some (renderHttpsConfig "app.example.com" 8069 8072 false "127.0.0.1") },
        none) := by
  refine ⟨?_, ?_⟩
  · decide
  · exact C6_config_install_sequence.2
      (Args.mk "app.example.com" "admin@app.example.com" "hetzner" "ipv4"
        "127.0.0.1" false "dns" false none false)
      (Env.mk "" "hztok" (some "1.2.3.4") none (fun _ => false)
        (fun c => c = "example.com".data) (fun _ => true) true true
        8069 8072 none)
      ["app.example.com".data, "example.com".data] "example.com".data "1.2.3.4"
      (by decide) rfl rfl rfl (by decide) (by decide) rfl rfl rfl rfl rfl

set_option maxRecDepth 400000 in
/-- C6 counterexample.  A successful DNS-01 run: certbot is invoked, the
run completes, and yet the Acme bootstrap configuration is never written —
no event writes the rendered Acme config, refuting "installs the Acme
bootstrap configuration and reloads the proxy before certificate issuance
... in both challenge modes". -/
theorem C6_counterexample :
    Ev.certbotDns "app.example.com" false ∈
      (cmdInit
        (Args.mk "app.example.com" "admin@app.example.com" "hetzner" "ipv4"
          "127.0.0.1" false "dns" false none false)
        (Env.mk "" "hztok" (some "1.2.3.4") none (fun _ => false)
          (fun c => c = "example.com".data) (fun _ => true) true true
          8069 8072 none)).1.events ∧
    Ev.writeConfig (renderAcmeConfig "app.example.com" "/var/www/app.example.com") ∉
      (cmdInit
        (Args.mk "app.example.com" "admin@app.example.com" "hetzner" "ipv4"
          "127.0.0.1" false "dns" false none false)
        (Env.mk "" "hztok" (some "1.2.3.4") none (fun _ => false)
          (fun c => c = "example.com".data) (fun _ => true) true true
          8069 8072 none)).1.events ∧
    (cmdInit
        (Args.mk "app.example.com" "admin@app.example.com" "hetzner" "ipv4"
          "127.0.0.1" false "dns" false none false)
        (Env.mk "" "hztok" (some "1.2.3.4") none (fun _ => false)
          (fun c => c = "example.com".data) (fun _ => true) true true
          8069 8072 none)).2 = none := by
  refine ⟨by decide, by decide, by decide⟩

end OdooNginxSetup
